import Mathlib

set_option maxRecDepth 100000

/-!
Verification of the StudyGenie quiz backend (src/backend/ai_engine.py and
src/backend/main.py). The response-interpreter pipeline — regex extraction of a
JSON payload from an LLM completion, json.loads, structural validation,
truncation, explanation defaulting and the deterministic fallback — is embedded
as total Lean functions over strings modelled as lists of characters. Machine
strings are Python str values; Python exceptions that the source catches are
modelled as Option and Except results.
-/

/-- Characters written by code point to keep the development free of
delimiter-heavy literals. Code point 96 is the backquote. -/
def backquote : Char := Char.ofNat 96

/-- Code point 123, the opening curly brace. -/
def lbrace : Char := Char.ofNat 123

/-- Code point 125, the closing curly brace. -/
def rbrace : Char := Char.ofNat 125

/-- Code point 39, the single quote used by Python repr. -/
def squote : Char := Char.ofNat 39

/-- The character class of the regex metacharacter backslash-s as it applies to
the ASCII range: space, tab, newline, carriage return, vertical tab and form
feed. (Python re also matches some further Unicode spaces; none of the claims
involve them.) -/
def isSpace (c : Char) : Bool :=
  c = ' ' || c = '\t' || c = '\n' || c = '\x0d' || c = '\x0b' || c = '\x0c'

/-- Whitespace skipped by json.loads between tokens: space, tab, newline,
carriage return. -/
def isJsonWs (c : Char) : Bool :=
  c = ' ' || c = '\t' || c = '\n' || c = '\x0d'

/-! ### Regex extraction, ai_engine.py lines 177-189

Strategy one models the search for the pattern
backquote backquote backquote json, backslash-s star, a group capturing an
open bracket followed by a lazy any-character star and a close bracket, then
backslash-s star and three backquotes.  Strategy two models the DOTALL search
for an open bracket, backslash-s star, open brace, greedy dot star, close
brace, backslash-s star, close bracket, of which the whole match is kept.
Both searches take the leftmost starting position that admits a match; the
lazy star takes the shortest body, the greedy star the longest. -/

/-- The literal opening tag of extraction strategy one. -/
def fenceTag : List Char := "```json".data

/-- The literal closing fence. -/
def fenceClosTag : List Char := "```".data

/-- After a candidate close bracket, the pattern requires optional whitespace
and then the closing fence. -/
def fenceCloseHere (l : List Char) : Bool :=
  fenceClosTag.isPrefixOf (l.dropWhile isSpace)

/-- The lazy any-character star: scan forward, and stop at the first close
bracket whose tail admits the closing fence.  `acc` holds the scanned body in
reverse; the returned group includes the final close bracket. -/
def lazyScan : List Char → List Char → Option (List Char)
  | [], _ => none
  | c :: rest, acc =>
      if c = ']' && fenceCloseHere rest then some (acc.reverse ++ [']'])
      else lazyScan rest (c :: acc)

/-- Complete strategy one at a fixed start: `l` is the text just after the
opening tag.  Whitespace is skipped, an open bracket is required, and the
group runs lazily to the first viable close bracket. -/
def fenceBody (l : List Char) : Option (List Char) :=
  match l.dropWhile isSpace with
  | '[' :: rest =>
      match lazyScan rest [] with
      | some body => some ('[' :: body)
      | none => none
  | _ => none

/-- re.search for strategy one: try every starting position left to right. -/
def searchFence : List Char → Option (List Char)
  | [] => none
  | c :: rest =>
      if fenceTag.isPrefixOf (c :: rest) then
        match fenceBody ((c :: rest).drop fenceTag.length) with
        | some g => some g
        | none => searchFence rest
      else searchFence rest

/-- After a candidate close brace, strategy two requires optional whitespace
and then a close bracket. -/
def ketAfterSpaces (l : List Char) : Bool :=
  match l.dropWhile isSpace with
  | ']' :: _ => true
  | _ => false

/-- The greedy dot star of strategy two: keep the last close brace that is
followed by optional whitespace and a close bracket.  `acc` holds the scanned
prefix in reverse; `best` is the best match so far.  The returned text runs
from just after the open brace through the matched close bracket. -/
def greedyScan : List Char → List Char → Option (List Char) → Option (List Char)
  | [], _, best => best
  | c :: rest, acc, best =>
      let best2 :=
        if c = rbrace && ketAfterSpaces rest then
          some (acc.reverse ++ rbrace :: (rest.takeWhile isSpace) ++ [']'])
        else best
      greedyScan rest (c :: acc) best2

/-- Complete strategy two at a fixed start: `l` is the text just after the
open bracket.  Whitespace is skipped, an open brace is required, then the
greedy scan finds the last viable close brace.  The whole match, including the
open bracket, is returned (the source keeps group zero here). -/
def bareBody (l : List Char) : Option (List Char) :=
  match l.dropWhile isSpace with
  | c :: rest =>
      if c = lbrace then
        match greedyScan rest [] none with
        | some body => some ('[' :: (l.takeWhile isSpace) ++ lbrace :: body)
        | none => none
      else none
  | [] => none

/-- re.search for strategy two: try every open bracket left to right. -/
def searchBare : List Char → Option (List Char)
  | [] => none
  | c :: rest =>
      if c = '[' then
        match bareBody rest with
        | some m => some m
        | none => searchBare rest
      else searchBare rest

/-- ai_engine.py lines 177-189: fenced block first, then bare array-of-objects
literal, else the whole completion text is the candidate payload. -/
def extractCandidate (content : List Char) : List Char :=
  match searchFence content with
  | some g => g
  | none =>
      match searchBare content with
      | some m => m
      | none => content

/-! ### JSON values and a model of json.loads -/

/-- Parsed JSON data as produced by json.loads.  Numbers keep their raw token
text: no claim computes with numeric values, and this avoids committing to
float semantics. -/
inductive JValue where
  | null
  | bool (b : Bool)
  | num (raw : List Char)
  | str (s : List Char)
  | arr (xs : List JValue)
  | obj (kvs : List (List Char × JValue))

/-- First-match association-list lookup; parsing keeps keys unique, so this is
Python dict indexing. -/
def lookupKey : List (List Char × JValue) → List Char → Option JValue
  | [], _ => none
  | (k, v) :: rest, key => if k = key then some v else lookupKey rest key

/-- Python dict assignment: replace in place when the key exists, else append —
also the duplicate-key (last wins) behaviour of json.loads object decoding. -/
def objInsert : List (List Char × JValue) → List Char → JValue → List (List Char × JValue)
  | [], key, v => [(key, v)]
  | (k, w) :: rest, key, v =>
      if k = key then (k, v) :: rest else (k, w) :: objInsert rest key v

/-- Value of a single string escape character; backslash-u is handled
separately. -/
def escChar (e : Char) : Option Char :=
  if e = '"' then some '"'
  else if e = '\\' then some '\\'
  else if e = '/' then some '/'
  else if e = 'b' then some '\x08'
  else if e = 'f' then some '\x0c'
  else if e = 'n' then some '\n'
  else if e = 'r' then some '\x0d'
  else if e = 't' then some '\t'
  else none

/-- Hexadecimal digit value. -/
def hexVal (c : Char) : Option Nat :=
  if '0' ≤ c && c ≤ '9' then some (c.toNat - 48)
  else if 'a' ≤ c && c ≤ 'f' then some (c.toNat - 87)
  else if 'A' ≤ c && c ≤ 'F' then some (c.toNat - 70)
  else none

/-- Body of a JSON string, after the opening quote: strict mode, so raw
control characters fail; unknown escapes fail.  (Surrogate-pair combination of
two backslash-u escapes is not modelled; no claim involves one.)  Returns the
decoded characters and the rest of the input after the closing quote. -/
def stringBody : Nat → List Char → Option (List Char × List Char)
  | 0, _ => none
  | _ + 1, [] => none
  | fuel + 1, c :: rest =>
      if c = '"' then some ([], rest)
      else if c = '\\' then
        match rest with
        | 'u' :: h1 :: h2 :: h3 :: h4 :: rest2 =>
            match hexVal h1, hexVal h2, hexVal h3, hexVal h4 with
            | some a, some b, some c3, some d =>
                match stringBody fuel rest2 with
                | some (s, r) => some (Char.ofNat (((a * 16 + b) * 16 + c3) * 16 + d) :: s, r)
                | none => none
            | _, _, _, _ => none
        | e :: rest2 =>
            match escChar e with
            | some ec =>
                match stringBody fuel rest2 with
                | some (s, r) => some (ec :: s, r)
                | none => none
            | none => none
        | [] => none
      else if c.toNat < 32 then none
      else
        match stringBody fuel rest with
        | some (s, r) => some (c :: s, r)
        | none => none

/-- Integer part of a JSON number: an optional single zero, or a nonzero digit
followed by digits. -/
def intPart : List Char → Option (List Char × List Char)
  | '0' :: rest => some (['0'], rest)
  | c :: rest =>
      if c.isDigit then some (c :: rest.takeWhile Char.isDigit, rest.dropWhile Char.isDigit)
      else none
  | [] => none

/-- Fractional part: a dot followed by at least one digit, else nothing is
consumed. -/
def fracPart (l : List Char) : List Char × List Char :=
  match l with
  | '.' :: rest =>
      let ds := rest.takeWhile Char.isDigit
      if ds.isEmpty then ([], l) else ('.' :: ds, rest.dropWhile Char.isDigit)
  | _ => ([], l)

/-- Exponent part: e or E, optional sign, at least one digit, else nothing is
consumed. -/
def expPart (l : List Char) : List Char × List Char :=
  match l with
  | c :: s :: rest =>
      if c = 'e' || c = 'E' then
        if s = '+' || s = '-' then
          let ds := rest.takeWhile Char.isDigit
          if ds.isEmpty then ([], l)
          else (c :: s :: ds, rest.dropWhile Char.isDigit)
        else
          let ds := (s :: rest).takeWhile Char.isDigit
          if ds.isEmpty then ([], l)
          else (c :: ds, (s :: rest).dropWhile Char.isDigit)
      else ([], l)
  | _ => ([], l)

/-- A JSON number token, kept as its raw text. -/
def numberToken (l : List Char) : Option (List Char × List Char) :=
  match l with
  | '-' :: rest =>
      match intPart rest with
      | some (ip, r1) =>
          let fr := fracPart r1
          let ex := expPart fr.2
          some ('-' :: ip ++ fr.1 ++ ex.1, ex.2)
      | none => none
  | _ =>
      match intPart l with
      | some (ip, r1) =>
          let fr := fracPart r1
          let ex := expPart fr.2
          some (ip ++ fr.1 ++ ex.1, ex.2)
      | none => none

mutual

/-- One JSON value, after skipping whitespace.  Fuel decreases at every
recursive call; the top level supplies more fuel than any input can consume.
(json.loads also accepts NaN and Infinity literals; no claim involves them.) -/
def jsonValue : Nat → List Char → Option (JValue × List Char)
  | 0, _ => none
  | fuel + 1, l =>
      match l.dropWhile isJsonWs with
      | [] => none
      | c :: rest =>
          if c = '"' then
            match stringBody (rest.length + 1) rest with
            | some (s, r) => some (.str s, r)
            | none => none
          else if c = '[' then
            match rest.dropWhile isJsonWs with
            | ']' :: r2 => some (.arr [], r2)
            | _ =>
                match jsonArrItems fuel rest [] with
                | some (xs, r) => some (.arr xs, r)
                | none => none
          else if c = lbrace then
            match rest.dropWhile isJsonWs with
            | r1 =>
                if r1.headD ' ' = rbrace then some (.obj [], r1.tail)
                else
                  match jsonObjItems fuel rest [] with
                  | some (kvs, r) => some (.obj kvs, r)
                  | none => none
          else if "true".data.isPrefixOf (c :: rest) then some (.bool true, (c :: rest).drop 4)
          else if "false".data.isPrefixOf (c :: rest) then some (.bool false, (c :: rest).drop 5)
          else if "null".data.isPrefixOf (c :: rest) then some (.null, (c :: rest).drop 4)
          else
            match numberToken (c :: rest) with
            | some (raw, r) => some (.num raw, r)
            | none => none

/-- Comma-separated array items after the open bracket of a nonempty array. -/
def jsonArrItems : Nat → List Char → List JValue → Option (List JValue × List Char)
  | 0, _, _ => none
  | fuel + 1, l, acc =>
      match jsonValue fuel l with
      | none => none
      | some (v, r) =>
          match r.dropWhile isJsonWs with
          | ',' :: r2 => jsonArrItems fuel r2 (v :: acc)
          | ']' :: r2 => some ((v :: acc).reverse, r2)
          | _ => none

/-- Comma-separated key-value pairs after the open brace of a nonempty
object. -/
def jsonObjItems : Nat → List Char → List (List Char × JValue) →
    Option (List (List Char × JValue) × List Char)
  | 0, _, _ => none
  | fuel + 1, l, acc =>
      match l.dropWhile isJsonWs with
      | '"' :: r1 =>
          match stringBody (r1.length + 1) r1 with
          | some (k, r2) =>
              match r2.dropWhile isJsonWs with
              | ':' :: r3 =>
                  match jsonValue fuel r3 with
                  | none => none
                  | some (v, r4) =>
                      match r4.dropWhile isJsonWs with
                      | ',' :: r5 => jsonObjItems fuel r5 (objInsert acc k v)
                      | c5 :: r5 =>
                          if c5 = rbrace then some (objInsert acc k v, r5) else none
                      | [] => none
              | _ => none
          | none => none
      | _ => none

end

/-- json.loads: one value consuming, up to whitespace, the whole input. -/
def jsonParse (l : List Char) : Option JValue :=
  match jsonValue (l.length + 1) l with
  | some (v, r) => if (r.dropWhile isJsonWs).isEmpty then some v else none
  | none => none

/-! ### Quiz data validation and fallback, ai_engine.py lines 139-168 -/

/-- The question key. -/
def qKey : List Char := "question".data

/-- The options key. -/
def oKey : List Char := "options".data

/-- The correct-answer key. -/
def caKey : List Char := "correct_answer".data

/-- The explanation key. -/
def eKey : List Char := "explanation".data

/-- Python membership test on a dict. -/
def hasKey (kvs : List (List Char × JValue)) (k : List Char) : Bool :=
  (lookupKey kvs k).isSome

/-- ai_engine.py line 167: the options value must be a list of length exactly
four. -/
def optionsLen4 (kvs : List (List Char × JValue)) : Bool :=
  match lookupKey kvs oKey with
  | some (.arr xs) => xs.length = 4
  | _ => false

/-- The per-record checks of the loop at ai_engine.py lines 160-168: a record
must be a dict, hold the question, options and correct-answer keys, and have
exactly four options. -/
def validQuestion : JValue → Bool
  | .obj kvs => hasKey kvs qKey && hasKey kvs oKey && hasKey kvs caKey && optionsLen4 kvs
  | _ => false

/-- ai_engine.py lines 154-168, as a Boolean: true when the Python function
returns without raising ValueError, false when it raises. -/
def validate_quiz_data : JValue → Bool
  | .arr qs => qs.all validQuestion
  | _ => false

/-- The fixed option labels of the fallback quiz. -/
def optionLabels : List JValue :=
  [.str "Option A".data, .str "Option B".data, .str "Option C".data, .str "Option D".data]

/-- The templated question text of fallback entry `i` (zero-based here; the
source interpolates the one-based index i + 1). -/
def fallbackQuestionText (subject : List Char) (i : Nat) : List Char :=
  "Sample ".data ++ subject ++ " question #".data ++ (Nat.repr (i + 1)).data

/-- The sentinel explanation text of every fallback entry. -/
def fallbackSentinel : List Char := "This is a fallback explanation.".data

/-- One entry of the fallback quiz, in the dict order of ai_engine.py lines
145-150. -/
def fallbackRecord (subject : List Char) (i : Nat) : JValue :=
  .obj [(qKey, .str (fallbackQuestionText subject i)),
        (oKey, .arr optionLabels),
        (caKey, .str "Option A".data),
        (eKey, .str fallbackSentinel)]

/-- ai_engine.py lines 139-152: the deterministic placeholder quiz. -/
def create_fallback_quiz (subject : List Char) (num_questions : Nat) : List JValue :=
  (List.range num_questions).map (fallbackRecord subject)

/-! ### Explanation defaulting and the interpreter, ai_engine.py lines 172-212 -/

mutual

/-- Python repr() of a parsed JSON value: True, False and None for the
literals, the raw token for a number (exact for integers; float tokens are
kept verbatim rather than re-rendered), single-quoted text for a string, and
bracketed element lists for containers. -/
def pyRepr : JValue → List Char
  | .null => "None".data
  | .bool b => if b then "True".data else "False".data
  | .num raw => raw
  | .str s => squote :: s ++ [squote]
  | .arr xs => '[' :: pyReprList xs ++ [']']
  | .obj kvs => lbrace :: pyReprObj kvs ++ [rbrace]

/-- Comma-separated repr of list elements. -/
def pyReprList : List JValue → List Char
  | [] => []
  | [x] => pyRepr x
  | x :: xs => pyRepr x ++ ", ".data ++ pyReprList xs

/-- Comma-separated repr of dict entries. -/
def pyReprObj : List (List Char × JValue) → List Char
  | [] => []
  | [(k, v)] => squote :: k ++ [squote] ++ ": ".data ++ pyRepr v
  | (k, v) :: rest => squote :: k ++ [squote] ++ ": ".data ++ pyRepr v ++ ", ".data ++ pyReprObj rest

end

/-- Python str(): like repr, but a bare string keeps no quotes. -/
def pyStr : JValue → List Char
  | .str s => s
  | v => pyRepr v

/-- The synthesized explanation of ai_engine.py line 204. -/
def answerText (ca : JValue) : List Char :=
  "The correct answer is ".data ++ pyStr ca ++ ".".data

/-- The loop body of ai_engine.py lines 202-204: a record missing the
explanation key gains the synthesized one.  The no-correct-answer branch is
unreachable after validation (Python would raise KeyError there, uncaught). -/
def addExplanation : JValue → JValue
  | .obj kvs =>
      if hasKey kvs eKey then .obj kvs
      else
        match lookupKey kvs caKey with
        | some ca => .obj (objInsert kvs eKey (.str (answerText ca)))
        | none => .obj kvs
  | v => v

/-- ai_engine.py lines 197-199: truncate to the requested count when longer. -/
def truncateTo (n : Nat) (qs : List JValue) : List JValue :=
  if qs.length > n then qs.take n else qs

/-- ai_engine.py lines 172-212.  The except clause catching JSONDecodeError
and ValueError appears as the parse-failure and validation-failure branches;
both return the fallback quiz.  The non-list branch under a passed validation
is unreachable, since validation only passes arrays. -/
def parse_quiz_response (response_content subject : List Char) (num_questions : Nat) :
    List JValue :=
  match jsonParse (extractCandidate response_content) with
  | some data =>
      if validate_quiz_data data then
        match data with
        | .arr qs => (truncateTo num_questions qs).map addExplanation
        | _ => create_fallback_quiz subject num_questions
      else create_fallback_quiz subject num_questions
  | none => create_fallback_quiz subject num_questions

/-! ### generate_quiz and the POST /quiz handler

ai_engine.py lines 217-258 and main.py lines 85-107.  The remote model call is
out of scope; its completion text is a parameter.  The reveal branch at
ai_engine.py line 246 calls _format_quiz_with_reveal, a name defined nowhere
in the repository, so at runtime Python raises
NameError: name _format_quiz_with_reveal is not defined; the except clause at
line 256 re-raises it as Exception, and the handler in main.py line 107 turns
that into an HTTP 500 response. -/

/-- The result dict of a successful generate_quiz call. -/
structure QuizResult where
  quiz_data : List JValue
  formatted_quiz : Option (List Char)

/-- ai_engine.py lines 217-258 after a successful model call, with the raised
exception modelled as an Except error carrying the message text. -/
def generate_quiz (completion subject : List Char) (num_questions : Nat)
    (reveal_answer : Bool) : Except (List Char) QuizResult :=
  let quiz_data := parse_quiz_response completion subject num_questions
  if reveal_answer then
    .error ("Failed to generate quiz: name _format_quiz_with_reveal is not defined".data)
  else
    .ok { quiz_data := quiz_data, formatted_quiz := none }

/-- main.py lines 85-107: the POST /quiz handler, returning either the
response body or an HTTP error status. -/
def generate_quiz_api (completion subject : List Char) (num_questions : Nat)
    (reveal_format : Bool) : Except Nat (List JValue × Option (List Char)) :=
  match generate_quiz completion subject num_questions reveal_format with
  | .error _ => .error 500
  | .ok r =>
      if reveal_format then .ok (r.quiz_data, r.formatted_quiz)
      else .ok (r.quiz_data, none)

/-! ### Concrete completion texts used by the claims -/

/-- The round-trip completion of the spec: a fenced json block holding one
fully populated record. -/
def c8content : List Char :=
  ("```json\n[\x7b\"question\":\"Q\",\"options\":[\"A\",\"B\",\"C\",\"D\"],\"correct_answer\":\"B\",\"explanation\":\"E\"\x7d]\n```").data

/-- The record that the round-trip completion parses to. -/
def c8record : JValue :=
  .obj [(qKey, .str ['Q']),
        (oKey, .arr [.str ['A'], .str ['B'], .str ['C'], .str ['D']]),
        (caKey, .str ['B']),
        (eKey, .str ['E'])]

/-- A completion holding exactly two well-formed records as a bare array with
no code fence, the first one without an explanation. -/
def c3content : List Char :=
  ("Here are the questions: [\x7b\"question\": \"Q1\", \"options\": [\"A\", \"B\", \"C\", \"D\"], \"correct_answer\": \"A\"\x7d, \x7b\"question\": \"Q2\", \"options\": [\"A\", \"B\", \"C\", \"D\"], \"correct_answer\": \"B\", \"explanation\": \"E2\"\x7d]").data

/-- The four string options of the two-record completion. -/
def abcd : List JValue := [.str ['A'], .str ['B'], .str ['C'], .str ['D']]

/-- First record of the two-record completion after explanation defaulting. -/
def c3rec1 : JValue :=
  .obj [(qKey, .str "Q1".data), (oKey, .arr abcd), (caKey, .str ['A']),
        (eKey, .str "The correct answer is A.".data)]

/-- Second record of the two-record completion, unchanged. -/
def c3rec2 : JValue :=
  .obj [(qKey, .str "Q2".data), (oKey, .arr abcd), (caKey, .str ['B']),
        (eKey, .str "E2".data)]

/-- Four number values, a legal options list for validation (which constrains
only the length). -/
def nums1234 : List JValue := [.num ['1'], .num ['2'], .num ['3'], .num ['4']]

/-- A minimal well-formed record without an explanation, parameterized by its
question and correct-answer letters. -/
def miniRec (q ca : Char) : JValue :=
  .obj [(qKey, .str [q]), (oKey, .arr nums1234), (caKey, .str [ca])]

/-- A bare-array completion holding three well-formed records. -/
def c5content : List Char :=
  ("[\x7b\"question\":\"a\",\"options\":[1,2,3,4],\"correct_answer\":\"b\"\x7d, \x7b\"question\":\"c\",\"options\":[1,2,3,4],\"correct_answer\":\"d\"\x7d, \x7b\"question\":\"e\",\"options\":[1,2,3,4],\"correct_answer\":\"f\"\x7d]").data

/-- A bare-array completion holding one well-formed record with no
explanation. -/
def c6content : List Char :=
  ("[\x7b\"question\":\"a\",\"options\":[1,2,3,4],\"correct_answer\":\"b\"\x7d]").data

/-- The key-value pairs of the record in that completion. -/
def c6kvs : List (List Char × JValue) :=
  [(qKey, .str ['a']), (oKey, .arr nums1234), (caKey, .str ['b'])]

/-- A completion whose single record has only three options and is otherwise
fully populated. -/
def c7content : List Char :=
  ("[\x7b\"question\":\"a\",\"options\":[1,2,3],\"correct_answer\":\"b\",\"explanation\":\"e\"\x7d]").data

/-- The key-value pairs of the three-option record. -/
def c7kvs : List (List Char × JValue) :=
  [(qKey, .str ['a']), (oKey, .arr [.num ['1'], .num ['2'], .num ['3']]),
   (caKey, .str ['b']), (eKey, .str ['e'])]


/-! ### Prompt builders, ai_engine.py lines 65-94 and 110-137

Each is the f-string of the source, with the interpolated parameters spliced
in; the doubled braces of the source render as literal braces. -/

/-- ai_engine.py lines 65-94. -/
def _create_tutoring_prompt (subject level question learning_style background language : String) : String :=
  "\n    You are an expert tutor in " ++ subject ++ " at the " ++ level ++ " level. \n    \n    STUDENT PROFILE:\n    - Background knowledge: " ++ background
    ++ "\n    - Learning style preference: " ++ learning_style
    ++ "\n    - Language preference: " ++ language
    ++ "\n    \n    QUESTION:\n    " ++ question
    ++ "\n    \n    INSTRUCTIONS:\n    1. Provide a clear, educational explanation that directly addresses the question\n    2. Tailor your explanation to a " ++ background ++ " student at " ++ level ++ " level\n    3. Use " ++ language ++ " as the primary language\n    4. Format your response with appropriate markdown for readability\n    \n    LEARNING STYLE ADAPTATIONS:\n    - For Visual learners: Include descriptions of visual concepts, diagrams, or mental models\n    - For Text-based learners: Provide clear, structured explanations with defined concepts\n    - For Hands-on learners: Include practical examples, exercises, or applications\n    \n    Your explanation should be educational, accurate, and engaging.\n    "

/-- ai_engine.py lines 110-137. -/
def _create_quiz_prompt (subject level : String) (num_questions : Nat) : String :=
  "\n    Create a " ++ level ++ "-level quiz on " ++ subject ++ " with exactly " ++ Nat.repr num_questions
    ++ " multiple-choice questions.\n    \n    INSTRUCTIONS:\n    1. Each question should be appropriate for " ++ level ++ " level students\n    2. Each question must have exactly 4 answer options (A, B, C, D)\n    3. Clearly indicate the correct answer\n    4. Cover diverse aspects of " ++ subject
    ++ "\n    \n    FORMAT YOUR RESPONSE AS JSON:\n    ```json\n    [\n        \x7b\n            \"question\": \"Question text\",\n            \"options\": [\"Option A\", \"Option B\", \"Option C\", \"Option D\"],\n            \"correct_answer\": \"Option A\",\n            \"explanation\": \"Brief explanation of why this answer is correct\"\n        \x7d,\n        ...\n    ]\n    ```\n    \n    IMPORTANT: Make sure to return valid JSON that can be parsed. Do not include any text outside the JSON array.\n    Include a brief explanation for each correct answer.\n    "


/-! ### Structural validity of returned batches -/

/-- A structurally valid returned record: a mapping holding the question,
options, correct-answer and explanation keys, with exactly four options. -/
def validRecord : JValue → Bool
  | .obj kvs =>
      hasKey kvs qKey && hasKey kvs oKey && hasKey kvs caKey && hasKey kvs eKey
        && optionsLen4 kvs
  | _ => false

theorem lookupKey_objInsert_self (kvs : List (List Char × JValue)) (k : List Char) (v : JValue) :
    lookupKey (objInsert kvs k v) k = some v := by
  induction kvs with
  | nil => simp [objInsert, lookupKey]
  | cons hd tl ih =>
      obtain ⟨k2, w⟩ := hd
      by_cases hk : k2 = k
      · simp [objInsert, lookupKey, hk]
      · simp [objInsert, lookupKey, hk, ih]

theorem lookupKey_objInsert_ne (kvs : List (List Char × JValue)) (k k2 : List Char) (v : JValue)
    (h : k2 ≠ k) : lookupKey (objInsert kvs k v) k2 = lookupKey kvs k2 := by
  induction kvs with
  | nil => simp [objInsert, lookupKey, Ne.symm h]
  | cons hd tl ih =>
      obtain ⟨k3, w⟩ := hd
      by_cases hk : k3 = k
      · subst hk
        simp [objInsert, lookupKey, Ne.symm h]
      · simp [objInsert, lookupKey, hk, ih]

theorem validRecord_addExplanation (q : JValue) (hq : validQuestion q = true) :
    validRecord (addExplanation q) = true := by
  cases q with
  | obj kvs =>
      simp only [validQuestion, Bool.and_eq_true] at hq
      obtain ⟨⟨⟨h1, h2⟩, h3⟩, h4⟩ := hq
      by_cases he : hasKey kvs eKey = true
      · simp [addExplanation, he, validRecord, h1, h2, h3, h4]
      · simp only [hasKey, Option.isSome_iff_exists] at h3
        obtain ⟨ca, hca⟩ := h3
        simp only [addExplanation, he, if_false, Bool.false_eq_true, hca]
        simp only [validRecord, hasKey, optionsLen4, Bool.and_eq_true]
        refine ⟨⟨⟨⟨?_, ?_⟩, ?_⟩, ?_⟩, ?_⟩
        · rw [lookupKey_objInsert_ne _ _ _ _ (by decide)]; exact h1
        · rw [lookupKey_objInsert_ne _ _ _ _ (by decide)]; exact h2
        · rw [lookupKey_objInsert_ne _ _ _ _ (by decide)]
          simp [hca]
        · rw [lookupKey_objInsert_self]; simp
        · rw [lookupKey_objInsert_ne _ _ _ _ (by decide)]
          simpa [optionsLen4] using h4
  | null => simp [validQuestion] at hq
  | bool b => simp [validQuestion] at hq
  | num raw => simp [validQuestion] at hq
  | str s => simp [validQuestion] at hq
  | arr xs => simp [validQuestion] at hq

theorem validRecord_fallbackRecord (subject : List Char) (i : Nat) :
    validRecord (fallbackRecord subject i) = true := rfl

theorem fallback_all_valid (subject : List Char) (n : Nat) :
    (create_fallback_quiz subject n).all validRecord = true := by
  refine List.all_eq_true.2 ?_
  intro x hx
  obtain ⟨i, _, rfl⟩ := List.mem_map.1 hx
  exact validRecord_fallbackRecord subject i

/-! ### Case rewrites for the interpreter -/

theorem parse_quiz_response_of_parse_fail (content subject : List Char) (n : Nat)
    (h : jsonParse (extractCandidate content) = none) :
    parse_quiz_response content subject n = create_fallback_quiz subject n := by
  unfold parse_quiz_response
  rw [h]

theorem parse_quiz_response_of_invalid (content subject : List Char) (n : Nat) (d : JValue)
    (hp : jsonParse (extractCandidate content) = some d)
    (hv : validate_quiz_data d = false) :
    parse_quiz_response content subject n = create_fallback_quiz subject n := by
  unfold parse_quiz_response
  rw [hp]
  simp [hv]

theorem parse_quiz_response_of_valid (content subject : List Char) (n : Nat) (qs : List JValue)
    (hp : jsonParse (extractCandidate content) = some (.arr qs))
    (hv : validate_quiz_data (.arr qs) = true) :
    parse_quiz_response content subject n = (truncateTo n qs).map addExplanation := by
  unfold parse_quiz_response
  rw [hp]
  simp [hv]

theorem validate_mem (qs : List JValue) (hv : validate_quiz_data (.arr qs) = true) :
    ∀ q ∈ qs, validQuestion q = true := by
  simpa [validate_quiz_data, List.all_eq_true] using hv


/-! ### The claims -/

/-- C1: for every completion and requested count, a request with reveal format
true does NOT produce a quiz plus formatted-quiz result: generate_quiz raises
(the reveal branch calls the undefined name _format_quiz_with_reveal), and the
POST /quiz handler answers HTTP 500.  This settles the claim as a code bug:
the code contradicts its own docstring and the handler, which reads the
formatted_quiz field of the result. -/
theorem reveal_branch_errors (completion subject : List Char) (n : Nat) :
    generate_quiz completion subject n true
      = .error ("Failed to generate quiz: name _format_quiz_with_reveal is not defined".data)
    ∧ generate_quiz_api completion subject n true = .error 500 :=
  ⟨rfl, rfl⟩

/-- C2: for every completion text, subject and requested count, the quiz
interpreter returns (never raises), and every record of the returned batch is
a mapping holding the question, options, correct-answer and explanation keys
with exactly four options. -/
theorem interpreter_always_valid_batch (content subject : List Char) (n : Nat) :
    (parse_quiz_response content subject n).all validRecord = true := by
  cases hp : jsonParse (extractCandidate content) with
  | none =>
      rw [parse_quiz_response_of_parse_fail _ _ _ hp]
      exact fallback_all_valid subject n
  | some d =>
      cases hv : validate_quiz_data d with
      | false =>
          rw [parse_quiz_response_of_invalid _ _ _ _ hp hv]
          exact fallback_all_valid subject n
      | true =>
          cases d with
          | arr qs =>
              rw [parse_quiz_response_of_valid _ _ _ _ hp hv]
              refine List.all_eq_true.2 ?_
              intro x hx
              obtain ⟨q, hq, rfl⟩ := List.mem_map.1 hx
              refine validRecord_addExplanation q (validate_mem qs hv q ?_)
              unfold truncateTo at hq
              by_cases hl : qs.length > n
              · rw [if_pos hl] at hq
                exact List.take_subset _ _ hq
              · rwa [if_neg hl] at hq
          | null => simp [validate_quiz_data] at hv
          | bool b => simp [validate_quiz_data] at hv
          | num raw => simp [validate_quiz_data] at hv
          | str s2 => simp [validate_quiz_data] at hv
          | obj kvs => simp [validate_quiz_data] at hv

/-- C4: whenever the candidate payload fails to parse as JSON, or parses to
data that fails structural validation, the interpreter returns the
deterministic fallback batch: exactly the requested count of entries, each
templated from the subject and its one-based index, with the sentinel
explanation text. -/
theorem unparseable_gives_fallback (content subject : List Char) (n i : Nat)
    (h : ∀ d, jsonParse (extractCandidate content) = some d → validate_quiz_data d = false)
    (hi : i < n) :
    parse_quiz_response content subject n = create_fallback_quiz subject n
    ∧ (parse_quiz_response content subject n).length = n
    ∧ (parse_quiz_response content subject n).get? i
        = some (.obj [(qKey, .str ("Sample ".data ++ subject ++ " question #".data
                                    ++ (Nat.repr (i + 1)).data)),
                      (oKey, .arr optionLabels),
                      (caKey, .str "Option A".data),
                      (eKey, .str fallbackSentinel)]) := by
  have hfb : parse_quiz_response content subject n = create_fallback_quiz subject n := by
    cases hp : jsonParse (extractCandidate content) with
    | none => exact parse_quiz_response_of_parse_fail _ _ _ hp
    | some d => exact parse_quiz_response_of_invalid _ _ _ _ hp (h d hp)
  refine ⟨hfb, ?_, ?_⟩
  · rw [hfb]
    simp [create_fallback_quiz]
  · rw [hfb]
    unfold create_fallback_quiz
    rw [List.get?_map, List.get?_range hi]
    rfl

/-- C5: a successfully parsed and validated batch longer than the requested
count is truncated to exactly the first requested-count records (each then
subject to explanation defaulting); the result never has more than the
requested count of items. -/
theorem overlong_batch_truncated (content subject : List Char) (n : Nat) (qs : List JValue)
    (hp : jsonParse (extractCandidate content) = some (.arr qs))
    (hv : validate_quiz_data (.arr qs) = true)
    (hlen : n < qs.length) :
    parse_quiz_response content subject n = (qs.take n).map addExplanation
    ∧ (parse_quiz_response content subject n).length = n := by
  have hmain := parse_quiz_response_of_valid content subject n qs hp hv
  have htr : truncateTo n qs = qs.take n := by
    unfold truncateTo
    rw [if_pos hlen]
  refine ⟨by rw [hmain, htr], ?_⟩
  rw [hmain, htr]
  simp [List.length_take, Nat.min_eq_left (Nat.le_of_lt hlen)]

/-- C6: in a successfully parsed and validated batch, a surviving record that
lacks the explanation key gains exactly the synthesized text, the correct
answer rendered verbatim inside it, while a record that already holds an
explanation is returned unchanged. -/
theorem explanation_defaulting (content subject : List Char) (n i : Nat)
    (qs : List JValue) (kvs : List (List Char × JValue)) (ca : JValue)
    (hp : jsonParse (extractCandidate content) = some (.arr qs))
    (hv : validate_quiz_data (.arr qs) = true)
    (hr : (truncateTo n qs).get? i = some (.obj kvs))
    (hca : lookupKey kvs caKey = some ca) :
    (parse_quiz_response content subject n).get? i
      = some (if hasKey kvs eKey then .obj kvs
              else .obj (objInsert kvs eKey
                  (.str ("The correct answer is ".data ++ pyStr ca ++ ".".data)))) := by
  rw [parse_quiz_response_of_valid _ _ _ _ hp hv, List.get?_map, hr]
  by_cases he : hasKey kvs eKey
  · simp [addExplanation, he]
  · simp [addExplanation, he, hca, answerText]

/-- C7: a parsed batch containing a record whose options list has exactly
three elements fails validation, and the interpreter returns the fallback
batch, whatever the other fields of any record hold. -/
theorem three_options_fallback (content subject : List Char) (n : Nat) (qs : List JValue)
    (kvs : List (List Char × JValue)) (os : List JValue)
    (hp : jsonParse (extractCandidate content) = some (.arr qs))
    (hmem : JValue.obj kvs ∈ qs)
    (hopt : lookupKey kvs oKey = some (.arr os))
    (hlen : os.length = 3) :
    parse_quiz_response content subject n = create_fallback_quiz subject n := by
  have hq : validQuestion (.obj kvs) = false := by
    simp [validQuestion, optionsLen4, hopt, hlen]
  cases hval : validate_quiz_data (.arr qs) with
  | false => exact parse_quiz_response_of_invalid _ _ _ _ hp hval
  | true =>
      exfalso
      have := validate_mem qs hval _ hmem
      rw [hq] at this
      cases this

/-- C3 counterexample: on a completion holding exactly two well-formed records
as a bare array with no code fence and a requested count of five, the
interpreter does NOT return the fallback batch — it returns a batch of length
two. -/
theorem partial_batch_not_fallback :
    (parse_quiz_response c3content "Biology".data 5).length = 2
    ∧ parse_quiz_response c3content "Biology".data 5
        ≠ create_fallback_quiz "Biology".data 5 :=
  ⟨rfl, fun h => absurd (congrArg List.length h) (by decide)⟩

/-- C3 amended: when five questions are requested and the completion holds
only two well-formed records as a bare array with no code fence, the
interpreter keeps the partial batch: it returns exactly those two records
(explanation defaulting applied to the one missing it), neither padding to
five nor replacing the batch with the fallback. -/
theorem partial_batch_returned (subject : List Char) :
    parse_quiz_response c3content subject 5 = [c3rec1, c3rec2]
    ∧ (parse_quiz_response c3content subject 5).length = 2 :=
  ⟨rfl, rfl⟩

/-- C8: the hand-constructed fenced completion parses, for every requested
count of at least one, to exactly its one record: question Q, options A B C D,
correct answer B, and explanation exactly E. -/
theorem fenced_roundtrip (subject : List Char) (n : Nat) (h : 1 ≤ n) :
    parse_quiz_response c8content subject n = [c8record] := by
  have hp : jsonParse (extractCandidate c8content) = some (.arr [c8record]) := rfl
  have hv : validate_quiz_data (.arr [c8record]) = true := rfl
  rw [parse_quiz_response_of_valid _ _ _ _ hp hv]
  have : truncateTo n [c8record] = [c8record] := by
    unfold truncateTo
    rw [if_neg]
    simp only [List.length_singleton]
    omega
  rw [this]
  rfl

/-- C9: the prompt builders are pure total functions: identical inputs,
including empty strings, give byte-identical prompts, and every input
produces a prompt. -/
theorem prompt_builders_deterministic
    (s l q ls bg lang s2 l2 q2 ls2 bg2 lang2 : String) (n n2 : Nat)
    (h1 : s = s2) (h2 : l = l2) (h3 : q = q2) (h4 : ls = ls2) (h5 : bg = bg2)
    (h6 : lang = lang2) (h7 : n = n2) :
    _create_tutoring_prompt s l q ls bg lang
      = _create_tutoring_prompt s2 l2 q2 ls2 bg2 lang2
    ∧ _create_quiz_prompt s l n = _create_quiz_prompt s2 l2 n2 := by
  subst h1; subst h2; subst h3; subst h4; subst h5; subst h6; subst h7
  exact ⟨rfl, rfl⟩

/-- C10: for every subject and requested count of at least one, the completion
consisting of an empty JSON array parses, passes structural validation, and
yields the empty batch: the caller receives zero records, not the
requested-count-long fallback. -/
theorem empty_array_empty_batch (subject : List Char) (n : Nat) (h : 1 ≤ n) :
    jsonParse (extractCandidate "[]".data) = some (.arr [])
    ∧ validate_quiz_data (.arr []) = true
    ∧ parse_quiz_response "[]".data subject n = []
    ∧ (create_fallback_quiz subject n).length = n
    ∧ (0 : Nat) ≠ n := by
  refine ⟨rfl, rfl, ?_, ?_, ?_⟩
  · have hp : jsonParse (extractCandidate "[]".data) = some (.arr []) := rfl
    rw [parse_quiz_response_of_valid _ _ _ _ hp rfl]
    have : truncateTo n ([] : List JValue) = [] := by
      unfold truncateTo
      rw [if_neg]
      simp
    rw [this]
    rfl
  · simp [create_fallback_quiz]
  · omega

/-! ### Concrete instantiations of the hypothesised claims -/

/-- Witness for C4 at a prose-only completion, subject Chemistry, count 3,
index 1. -/
theorem unparseable_gives_fallback_witness :
    parse_quiz_response "no structured data here.".data "Chemistry".data 3
      = create_fallback_quiz "Chemistry".data 3
    ∧ (parse_quiz_response "no structured data here.".data "Chemistry".data 3).length = 3
    ∧ (parse_quiz_response "no structured data here.".data "Chemistry".data 3).get? 1
        = some (.obj [(qKey, .str ("Sample ".data ++ "Chemistry".data ++ " question #".data
                                    ++ (Nat.repr (1 + 1)).data)),
                      (oKey, .arr optionLabels),
                      (caKey, .str "Option A".data),
                      (eKey, .str fallbackSentinel)]) :=
  unparseable_gives_fallback "no structured data here.".data "Chemistry".data 3 1
    (fun d hd => by
      rw [show jsonParse (extractCandidate "no structured data here.".data) = none from rfl] at hd
      exact Option.noConfusion hd)
    (by decide)

/-- Witness for C5 at a three-record completion with count 2. -/
theorem overlong_batch_truncated_witness :
    parse_quiz_response c5content "Math".data 2
      = ([miniRec 'a' 'b', miniRec 'c' 'd', miniRec 'e' 'f'].take 2).map addExplanation
    ∧ (parse_quiz_response c5content "Math".data 2).length = 2 :=
  overlong_batch_truncated c5content "Math".data 2
    [miniRec 'a' 'b', miniRec 'c' 'd', miniRec 'e' 'f'] rfl rfl (by decide)

/-- Witness for C6 at a one-record completion whose record lacks an
explanation. -/
theorem explanation_defaulting_witness :
    (parse_quiz_response c6content "Math".data 1).get? 0
      = some (if hasKey c6kvs eKey then JValue.obj c6kvs
              else .obj (objInsert c6kvs eKey
                  (.str ("The correct answer is ".data ++ pyStr (.str ['b']) ++ ".".data)))) :=
  explanation_defaulting c6content "Math".data 1 0 [JValue.obj c6kvs] c6kvs (.str ['b'])
    rfl rfl rfl rfl

/-- Witness for C7 at a completion whose single record has three options. -/
theorem three_options_fallback_witness :
    parse_quiz_response c7content "History".data 4 = create_fallback_quiz "History".data 4 :=
  three_options_fallback c7content "History".data 4 [JValue.obj c7kvs] c7kvs
    [.num ['1'], .num ['2'], .num ['3']] rfl (List.mem_singleton.2 rfl) rfl rfl

/-- Witness for C8 at subject Math and count 1. -/
theorem fenced_roundtrip_witness :
    parse_quiz_response c8content "Math".data 1 = [c8record] :=
  fenced_roundtrip "Math".data 1 (by decide)

/-- Witness for C9 at empty strings and count 1. -/
theorem prompt_builders_deterministic_witness :
    _create_tutoring_prompt "" "" "" "" "" "" = _create_tutoring_prompt "" "" "" "" "" ""
    ∧ _create_quiz_prompt "" "" 1 = _create_quiz_prompt "" "" 1 :=
  prompt_builders_deterministic "" "" "" "" "" "" "" "" "" "" "" "" 1 1
    rfl rfl rfl rfl rfl rfl rfl

/-- Witness for C10 at subject Math and count 3. -/
theorem empty_array_empty_batch_witness :
    jsonParse (extractCandidate "[]".data) = some (.arr [])
    ∧ validate_quiz_data (.arr []) = true
    ∧ parse_quiz_response "[]".data "Math".data 3 = []
    ∧ (create_fallback_quiz "Math".data 3).length = 3
    ∧ (0 : Nat) ≠ 3 :=
  empty_array_empty_batch "Math".data 3 (by decide)
